import Mathlib

/-!
Verification of the boligsiden scraper pipeline (src/main.py).

The program is a linear extract-transform-aggregate-load script:
`fetch_properties_from_municipality` pulls listing records over HTTP,
`flatten_entry` maps one nested record to a flat field mapping,
`scrape_sydjylland_boliger` builds a pandas DataFrame with numeric
coercion, `calculate_daily_stats` computes one daily statistics row,
`_row_to_payload` normalizes NaN to None, and
`upsert_daily_stats_to_supabase` pushes the row to a remote table.

The embedding below models Python/JSON dynamic values with the
inductive `J`, pandas cell values of the stats row with `Val`
(distinguishing Python `None` from float NaN, since the two behave
differently under dtype selection and rounding), and floating-point
numbers as exact rationals (every claim under scrutiny concerns
structural properties or values exactly representable in binary
floating point, so exact rational arithmetic is a faithful
idealization).
-/

/-- A Python/JSON value as handled by the scraper: `None`, booleans,
numbers, strings, lists and dicts (dicts as association lists in
insertion order, first binding wins on lookup, as in a parsed JSON
object). -/
inductive J where
  | null
  | bool (b : Bool)
  | num (q : ℚ)
  | str (s : String)
  | arr (elems : List J)
  | obj (fields : List (String × J))

/-- Python truthiness: `None`, `False`, `0`, `""`, `[]`, `{}` are falsy,
everything else truthy. Used by the `x or {}` idiom in `flatten_entry`. -/
def J.truthy : J → Bool
  | .null => false
  | .bool b => b
  | .num q => decide (q ≠ 0)
  | .str s => decide (s ≠ "")
  | .arr l => !l.isEmpty
  | .obj l => !l.isEmpty

/-- Whether a Python value is a dict (`isinstance(x, dict)`). -/
def J.isObj : J → Bool
  | .obj _ => true
  | _ => false

/-- `x.get(k, d)`: dictionary lookup with default `d`; raises
`AttributeError` when `x` is not a dict (e.g. a string or a list). -/
def pyGet : J → String → J → Except String J
  | .obj fs, k, d => .ok ((fs.lookup k).getD d)
  | _, _, _ => .error "AttributeError"

/-- The `entry.get(k, {}) or {}` idiom: replace a falsy block
(`None`, `{}`, `""`, `0`, `[]`, `False`) by the empty dict. A truthy
non-dict value passes through unchanged (and makes the next `.get`
raise). -/
def normBlock (j : J) : J := if j.truthy then j else J.obj []

/-- The guarded inner lookup
`x.get(k, {}).get("name") if isinstance(x.get(k), dict) else None`
applied to the already-fetched value of `x.get(k)`: when that value is a
dict its `"name"` entry (default null), otherwise null. (`x.get(k, {})`
returns the same dict as `x.get(k)` whenever the `isinstance` guard
holds, and `.get` on a dict never raises, so the conditional is a pure
function of the fetched value.) -/
def guardedName : J → J
  | .obj l => (l.lookup "name").getD J.null
  | _ => J.null

/-- The same guarded lookup for `"days"`, used for
`timeOnMarket.get("current", {}).get("days")`. -/
def guardedDays : J → J
  | .obj l => (l.lookup "days").getD J.null
  | _ => J.null

/-- src/main.py `flatten_entry(entry, update_date=None)`. `today`
models `str(date.today())`, the ambient clock read used when
`update_date` is `None`. Returns the flat row as an association list
in the dict-literal key order, or the exception the Python code would
raise. -/
def flatten_entry (today : String) (entry : J) (update_date : Option String) :
    Except String (List (String × J)) := do
  let ud := update_date.getD today
  let a0 ← pyGet entry "address" (J.obj [])
  let address := normBlock a0
  let t0 ← pyGet entry "timeOnMarket" (J.obj [])
  let time_on_market := normBlock t0
  let mun ← pyGet address "municipality" J.null
  let kommune := guardedName mun
  let salgspris ← pyGet entry "priceCash" J.null
  let prisPerM2 ← pyGet entry "perAreaPrice" J.null
  let cur ← pyGet time_on_market "current" J.null
  let dage := guardedDays cur
  let boligareal ← pyGet address "livingArea" J.null
  let adresse ← pyGet address "roadName" J.null
  let husnummer ← pyGet address "houseNumber" J.null
  let postnummer ← pyGet address "zipCode" J.null
  let city ← pyGet address "city" J.null
  let cityName := guardedName city
  pure [("kommune", kommune),
        ("salgspris_kr", salgspris),
        ("pris_per_m2_kr", prisPerM2),
        ("dage_paa_marked_nu", dage),
        ("boligareal_m2", boligareal),
        ("opdateringsdato", J.str ud),
        ("adresse", adresse),
        ("husnummer", husnummer),
        ("postnummer", postnummer),
        ("by", cityName)]

/-- Outcome of the protected region of `fetch_properties_from_municipality`:
`exn` covers any exception inside the `try` block (network error, timeout,
non-2xx status via `raise_for_status`, JSON decode failure); `ok body` is a
successfully decoded JSON body. -/
inductive FetchOutcome where
  | exn
  | ok (body : J)

/-- src/main.py `fetch_properties_from_municipality(municipality, per_page=1000)`.
The `try/except Exception` makes the function total over outcomes: any
exception (including an `AttributeError` from `.get` on a non-dict body)
yields the empty list. On success it returns `body.get("cases", [])`. -/
def fetch_properties_from_municipality (municipality : String)
    (outcome : FetchOutcome) (per_page : ℕ) : J :=
  match outcome with
  | .exn => J.arr []
  | .ok body =>
    match pyGet body "cases" (J.arr []) with
    | .ok v => v
    | .error _ => J.arr []

/-- Observable side effects of `upsert_daily_stats_to_supabase` beyond its
return/raise behaviour: constructing the supabase client and issuing the
network upsert call. -/
inductive SupaEffect where
  | createClient
  | upsertCall
deriving DecidableEq

/-- Python truthiness of `os.environ.get(name)`: `None` (variable unset)
and the empty string are falsy. -/
def truthyEnv : Option String → Bool
  | none => false
  | some s => decide (s ≠ "")

/-- src/main.py `upsert_daily_stats_to_supabase(stats_df)`. The two
environment reads are passed in as `supabase_url`/`supabase_key`;
`upsert_error` models the `error` attribute of the response of the one
upsert call. Returns the list of effects performed, in order, together
with the normal/exceptional outcome. -/
def upsert_daily_stats_to_supabase (supabase_url supabase_key : Option String)
    (upsert_error : Option String) : List SupaEffect × Except String Unit :=
  if !truthyEnv supabase_url || !truthyEnv supabase_key then
    ([], .error "mangler env vars: SUPABASE_URL og/eller SUPABASE_SERVICE_ROLE_KEY")
  else
    match upsert_error with
    | some e => ([SupaEffect.createClient, SupaEffect.upsertCall],
                 .error ("supabase upsert fejl: " ++ e))
    | none => ([SupaEffect.createClient, SupaEffect.upsertCall], .ok ())

/-- A cell value of the pandas stats row built by `calculate_daily_stats`.
`null` is Python `None` (the column gets `object` dtype and is skipped by
numeric-dtype selection); `nan` is float NaN (`float64` dtype, selected and
rounded, `round` keeps it NaN); `int`/`float` are `int64`/`float64` cells;
`str` is a text cell. -/
inductive Val where
  | null
  | nan
  | int (n : ℤ)
  | float (q : ℚ)
  | str (s : String)
deriving DecidableEq

/-- One row of the scraped DataFrame after the `pd.to_numeric(..., errors="coerce")`
step of `scrape_sydjylland_boliger`: the numeric columns hold a rational or
null (NaN/None coincide inside a numeric DataFrame column: both are `pd.isna`
and are skipped by `mean`/`median`/`sum`/`dropna`), and the `kommune` column
holds the flattened municipality name or null, per the Dataset data model. -/
structure FlatRow where
  kommune : Option String
  salgspris_kr : Option ℚ
  pris_per_m2_kr : Option ℚ
  dage_paa_marked_nu : Option ℚ
  boligareal_m2 : Option ℚ
deriving DecidableEq

/-- The DataFrame handed to `calculate_daily_stats`: its set of columns
(`df.columns`; empty for `pd.DataFrame([])` built from zero records) and its
rows. A row field is only meaningful when the column is present. -/
structure DF where
  cols : List String
  rows : List FlatRow
deriving DecidableEq

/-- Rational inverse, stated through `Rat.divInt` so that it is
kernel-reducible (`Rat.inv` carries an `irreducible` attribute); proved
equal to the field inverse in `qinv_eq` below. -/
def qinv (q : ℚ) : ℚ := Rat.divInt q.den q.num

/-- Kernel-reducible rational division; proved equal to `/` in `qdiv_eq`. -/
def qdiv (a b : ℚ) : ℚ := a * qinv b

theorem qinv_eq (q : ℚ) : qinv q = q⁻¹ := (Rat.inv_def' q).symm

theorem qdiv_eq (a b : ℚ) : qdiv a b = a / b := by
  rw [qdiv, qinv_eq, div_eq_mul_inv]

/-- pandas `Series.mean()` over the non-null values of a column:
NaN on an empty series, otherwise the arithmetic mean. -/
def meanQ (l : List ℚ) : Option ℚ :=
  if l.isEmpty then none else some (qdiv l.sum l.length)

/-- pandas `Series.median()` over the non-null values of a column:
NaN on an empty series; the middle element of the sorted values for odd
length, the average of the two middle elements for even length. -/
def medianQ (l : List ℚ) : Option ℚ :=
  let s := List.insertionSort (· ≤ ·) l
  if s.isEmpty then none
  else if s.length % 2 = 1 then some (s.getD (s.length / 2) 0)
  else some (qdiv (s.getD (s.length / 2 - 1) 0 + s.getD (s.length / 2) 0) 2)

/-- `float(x)` applied to a pandas scalar that is either NaN or a number. -/
def floatOfOpt : Option ℚ → Val
  | none => Val.nan
  | some q => Val.float q

/-- `float(df[c].mean()) if c in df.columns else None`. -/
def meanStat (df : DF) (c : String) (proj : FlatRow → Option ℚ) : Val :=
  if c ∈ df.cols then floatOfOpt (meanQ (df.rows.filterMap proj)) else Val.null

/-- `float(df[c].median()) if c in df.columns else None`. -/
def medianStat (df : DF) (c : String) (proj : FlatRow → Option ℚ) : Val :=
  if c ∈ df.cols then floatOfOpt (medianQ (df.rows.filterMap proj)) else Val.null

/-- `float(df[c].sum() / 1_000_000_000) if c in df.columns else None`.
pandas `sum` skips NaN and returns `0.0` on an empty or all-null series. -/
def sumStat (df : DF) (c : String) (proj : FlatRow → Option ℚ) : Val :=
  if c ∈ df.cols then Val.float (qdiv (df.rows.filterMap proj).sum 1000000000)
  else Val.null

/-- Python `str.replace(" ", "_")` (all occurrences). -/
def pyReplaceSpace (s : String) : String :=
  ⟨s.data.map (fun c => if c = ' ' then '_' else c)⟩

/-- `sorted(df["kommune"].dropna().unique())` guarded by
`"kommune" in df.columns`: the distinct non-null municipality names,
in ascending lexical order. (`unique` keeps first occurrences, `dedup`
keeps last; the two deduplications agree after sorting, since both keep
exactly one copy of each distinct name.) -/
def kommuner (df : DF) : List String :=
  if "kommune" ∈ df.cols then
    List.insertionSort (· ≤ ·) (df.rows.filterMap FlatRow.kommune).dedup
  else []

/-- The four per-municipality fields added by the loop body of
`calculate_daily_stats` for one municipality `k`: `k_df` is the filtered
frame (same columns), the key prefix is the name with spaces replaced by
underscores. -/
def kommuneStats (df : DF) (k : String) : List (String × Val) :=
  let kdf : DF := ⟨df.cols, df.rows.filter (fun r => r.kommune == some k)⟩
  let pfx := pyReplaceSpace k
  [(pfx ++ "_Antal", Val.int kdf.rows.length),
   (pfx ++ "_Gns_Pris", meanStat kdf "salgspris_kr" FlatRow.salgspris_kr),
   (pfx ++ "_Gns_M2_Pris", meanStat kdf "pris_per_m2_kr" FlatRow.pris_per_m2_kr),
   (pfx ++ "_Gns_Liggetid", meanStat kdf "dage_paa_marked_nu" FlatRow.dage_paa_marked_nu)]

/-- The seven global entries of the `stats` dict of `calculate_daily_stats`,
in insertion order. -/
def baseStats (today : String) (df : DF) : List (String × Val) :=
  [("Dato", Val.str today),
   ("Total_Antal_Boliger", Val.int df.rows.length),
   ("Total_Gns_Pris_kr", meanStat df "salgspris_kr" FlatRow.salgspris_kr),
   ("Total_Median_Pris_kr", medianStat df "salgspris_kr" FlatRow.salgspris_kr),
   ("Total_Gns_M2_Pris_kr", meanStat df "pris_per_m2_kr" FlatRow.pris_per_m2_kr),
   ("Total_Gns_Liggetid_dage", meanStat df "dage_paa_marked_nu" FlatRow.dage_paa_marked_nu),
   ("Total_Samlet_Udbud_mia_kr", sumStat df "salgspris_kr" FlatRow.salgspris_kr)]

/-- The full `stats` dict before rounding: global entries, then for each
municipality in ascending order its four prefixed fields. -/
def rawStats (today : String) (df : DF) : List (String × Val) :=
  baseStats today df ++ (kommuner df).flatMap (kommuneStats df)

/-- Floor of a rational, computed by floor division of numerator by
denominator (the denominator is positive). -/
def ratFloor (q : ℚ) : ℤ := Int.fdiv q.num q.den

/-- Rounding to the nearest integer with ties to even, the rule used by
numpy/pandas `round`. -/
def roundHalfEven (q : ℚ) : ℤ :=
  let f := ratFloor q
  let r := q - (f : ℚ)
  if r < mkRat 1 2 then f
  else if mkRat 1 2 < r then f + 1
  else if f % 2 = 0 then f else f + 1

/-- Round a rational to 1 decimal place (`.round(1)`). -/
def roundTo1 (q : ℚ) : ℚ := qdiv (roundHalfEven (q * 10) : ℚ) 10

/-- The `stats_df[num_cols].round(1)` step on one cell:
`float64` cells are rounded to 1 decimal, `int64` cells are unchanged by
`round(1)`, NaN stays NaN, and `object` cells (`None`, text) are not in
`num_cols` and are untouched. -/
def roundVal : Val → Val
  | .float q => .float (roundTo1 q)
  | v => v

/-- src/main.py `calculate_daily_stats(df)`: the single stats row, as an
association list in field order. `today` models `str(date.today())`. -/
def calculate_daily_stats (today : String) (df : DF) : List (String × Val) :=
  (rawStats today df).map (fun p => (p.1, roundVal p.2))

/-- pandas `pd.isna` on a stats-row cell: `None` and NaN are NA. -/
def Val.isna : Val → Bool
  | .null => true
  | .nan => true
  | _ => false

/-- src/main.py `_row_to_payload(stats_df)`: the single row as a dict with
every NA cell (None or NaN) replaced by `None`. -/
def row_to_payload (row : List (String × Val)) : List (String × Val) :=
  row.map (fun p => (p.1, if p.2.isna then Val.null else p.2))

/-- Modelled from the spec: the local history-file sink
`mergeIntoHistory(stats, path)` of spec section 4.4 is not present in
src/main.py (only the remote supabase sink is); this definition follows the
spec's words. `stats` is today's row keyed by its date string (first
component); `file` is the parsed existing history (`none` when the file does
not exist or is unreadable, in which case the new row becomes the entire
history). Otherwise every existing row whose date equals today's date string
is dropped, the new row is appended, and the history is sorted ascending by
the date field before being rewritten in full. -/
def mergeIntoHistory {β : Type} (stats : String × β)
    (file : Option (List (String × β))) : List (String × β) :=
  match file with
  | none => [stats]
  | some rows =>
    List.insertionSort (fun a b => a.1 ≤ b.1)
      ((rows.filter (fun r => !(r.1 == stats.1))) ++ [stats])

/-! ## Helper lemmas -/

theorem roundHalfEven_intCast (n : ℤ) : roundHalfEven ((n : ℤ) : ℚ) = n := by
  unfold roundHalfEven ratFloor
  simp [Rat.num_intCast, Rat.den_intCast, Int.fdiv_one, Rat.mkRat_eq_div]

theorem roundTo1_intCast (n : ℤ) : roundTo1 ((n : ℤ) : ℚ) = (n : ℚ) := by
  unfold roundTo1
  rw [qdiv_eq]
  have h : ((n : ℤ) : ℚ) * 10 = ((10 * n : ℤ) : ℚ) := by push_cast; ring
  rw [h, roundHalfEven_intCast]
  push_cast
  ring

theorem roundHalfEven_eq_floor (q : ℚ) (f : ℤ) (hf : ratFloor q = f)
    (h2 : q - (f : ℚ) < mkRat 1 2) : roundHalfEven q = f := by
  unfold roundHalfEven
  rw [hf, if_pos h2]

theorem pyGet_obj (fs : List (String × J)) (k : String) (d : J) :
    pyGet (J.obj fs) k d = .ok ((fs.lookup k).getD d) := rfl

/-- Evaluation of `flatten_entry` when both the address block and the
time-on-market block normalize to dicts: it succeeds and every output
field is given by the corresponding guarded lookup. -/
theorem flatten_entry_ok (today : String) (fs : List (String × J))
    (ud : Option String) (afs tfs : List (String × J))
    (ha : normBlock ((fs.lookup "address").getD (J.obj [])) = J.obj afs)
    (ht : normBlock ((fs.lookup "timeOnMarket").getD (J.obj [])) = J.obj tfs) :
    flatten_entry today (J.obj fs) ud = .ok
      [("kommune", guardedName ((afs.lookup "municipality").getD J.null)),
       ("salgspris_kr", (fs.lookup "priceCash").getD J.null),
       ("pris_per_m2_kr", (fs.lookup "perAreaPrice").getD J.null),
       ("dage_paa_marked_nu", guardedDays ((tfs.lookup "current").getD J.null)),
       ("boligareal_m2", (afs.lookup "livingArea").getD J.null),
       ("opdateringsdato", J.str (ud.getD today)),
       ("adresse", (afs.lookup "roadName").getD J.null),
       ("husnummer", (afs.lookup "houseNumber").getD J.null),
       ("postnummer", (afs.lookup "zipCode").getD J.null),
       ("by", guardedName ((afs.lookup "city").getD J.null))] := by
  unfold flatten_entry
  simp only [bind, Except.bind, pure, Except.pure, pyGet_obj, ha, ht]

/-- The example dataset of the spec: two Esbjerg listings with sale prices
2,000,000 and 3,000,000, all other numeric fields null, with the ten
columns the pipeline always produces for a non-empty scrape. -/
def exDF : DF :=
  ⟨["kommune", "salgspris_kr", "pris_per_m2_kr", "dage_paa_marked_nu",
    "boligareal_m2", "opdateringsdato", "adresse", "husnummer", "postnummer", "by"],
   [⟨some "Esbjerg", some 2000000, none, none, none⟩,
    ⟨some "Esbjerg", some 3000000, none, none, none⟩]⟩

/-- A dataset with the numeric columns present but entirely null: one
listing record carrying no municipality, price, area or market-days data. -/
def c1df : DF :=
  ⟨["kommune", "salgspris_kr", "pris_per_m2_kr", "dage_paa_marked_nu",
    "boligareal_m2", "opdateringsdato", "adresse", "husnummer", "postnummer", "by"],
   [⟨none, none, none, none, none⟩]⟩

/-- Full evaluation of the stats row on the example dataset. Note
`Total_Samlet_Udbud_mia_kr`: the raw value is 5,000,000 / 10^9 = 0.005,
which rounds to 0.0 at 1 decimal place. -/
theorem exDF_stats : calculate_daily_stats "2025-01-01" exDF =
    [("Dato", Val.str "2025-01-01"),
     ("Total_Antal_Boliger", Val.int 2),
     ("Total_Gns_Pris_kr", Val.float 2500000),
     ("Total_Median_Pris_kr", Val.float 2500000),
     ("Total_Gns_M2_Pris_kr", Val.nan),
     ("Total_Gns_Liggetid_dage", Val.nan),
     ("Total_Samlet_Udbud_mia_kr", Val.float 0),
     ("Esbjerg_Antal", Val.int 2),
     ("Esbjerg_Gns_Pris", Val.float 2500000),
     ("Esbjerg_Gns_M2_Pris", Val.nan),
     ("Esbjerg_Gns_Liggetid", Val.nan)] := by
  have hfm : exDF.rows.filterMap FlatRow.salgspris_kr = [2000000, 3000000] := by decide
  have hmean : meanQ [2000000, 3000000] = some 2500000 := by
    simp [meanQ, qdiv_eq]
    norm_num
  have hmed : medianQ [2000000, 3000000] = some 2500000 := by
    unfold medianQ
    norm_num [List.insertionSort, List.orderedInsert, qdiv_eq]
  have hMS : meanStat exDF "salgspris_kr" FlatRow.salgspris_kr = Val.float 2500000 := by
    unfold meanStat
    rw [if_pos (by decide : "salgspris_kr" ∈ exDF.cols), hfm, hmean]
    rfl
  have hMD : medianStat exDF "salgspris_kr" FlatRow.salgspris_kr = Val.float 2500000 := by
    unfold medianStat
    rw [if_pos (by decide : "salgspris_kr" ∈ exDF.cols), hfm, hmed]
    rfl
  have hM2 : meanStat exDF "pris_per_m2_kr" FlatRow.pris_per_m2_kr = Val.nan := by
    unfold meanStat
    rw [if_pos (by decide : "pris_per_m2_kr" ∈ exDF.cols)]
    rfl
  have hLT : meanStat exDF "dage_paa_marked_nu" FlatRow.dage_paa_marked_nu = Val.nan := by
    unfold meanStat
    rw [if_pos (by decide : "dage_paa_marked_nu" ∈ exDF.cols)]
    rfl
  have hSU : sumStat exDF "salgspris_kr" FlatRow.salgspris_kr = Val.float (mkRat 1 200) := by
    unfold sumStat
    rw [if_pos (by decide : "salgspris_kr" ∈ exDF.cols), hfm]
    have h : qdiv (List.sum [(2000000 : ℚ), 3000000]) 1000000000 = mkRat 1 200 := by
      rw [qdiv_eq, Rat.mkRat_eq_div]
      norm_num
    rw [h]
  have hfted : (⟨exDF.cols, exDF.rows.filter (fun r => r.kommune == some "Esbjerg")⟩ : DF)
      = exDF := by decide
  have hk : kommuner exDF = ["Esbjerg"] := by decide
  have hr25 : roundTo1 2500000 = 2500000 := by
    have h := roundTo1_intCast 2500000
    norm_num at h
    exact h
  have hr0 : roundTo1 (mkRat 1 200) = 0 := by
    unfold roundTo1
    have h10 : mkRat 1 200 * 10 = mkRat 1 20 := by
      rw [Rat.mkRat_eq_div, Rat.mkRat_eq_div]
      norm_num
    have hf : ratFloor (mkRat 1 20) = 0 := by decide
    rw [h10, roundHalfEven_eq_floor (mkRat 1 20) 0 hf
      (by rw [Rat.mkRat_eq_div, Rat.mkRat_eq_div]; norm_num)]
    rw [qdiv_eq]
    norm_num
  unfold calculate_daily_stats rawStats baseStats
  rw [hk]
  simp only [kommuneStats, List.flatMap_cons, List.flatMap_nil, List.append_nil,
             List.map_append, List.map_cons, List.map_nil]
  rw [hfted]
  rw [hMS, hMD, hM2, hLT, hSU]
  simp only [roundVal]
  rw [hr25, hr0]
  rfl

/-- A fetched `address`/`timeOnMarket` block value survives the
`x or {}` normalization as a dict exactly when it is itself a dict or is
falsy (then the empty dict is substituted). -/
def blockOk (j : J) : Bool := !j.truthy || j.isObj

theorem normBlock_obj_of_blockOk (j : J) (h : blockOk j = true) :
    ∃ l, normBlock j = J.obj l := by
  unfold blockOk at h
  rw [Bool.or_eq_true_iff] at h
  unfold normBlock
  rcases h with h | h
  · rw [Bool.not_eq_true'] at h
    rw [if_neg (by rw [h]; exact Bool.false_ne_true)]
    exact ⟨[], rfl⟩
  · cases j <;> simp only [J.isObj] at h <;>
      first
        | exact absurd h (by decide)
        | skip
    rename_i l
    by_cases hl : (J.obj l).truthy = true
    · rw [if_pos hl]
      exact ⟨l, rfl⟩
    · rw [if_neg hl]
      exact ⟨[], rfl⟩

theorem normBlock_not_obj_of_not_blockOk (j : J) (h : blockOk j = false) :
    (normBlock j).isObj = false := by
  unfold blockOk at h
  rw [Bool.or_eq_false_iff] at h
  unfold normBlock
  rw [if_pos (by rw [← Bool.not_not (J.truthy j), h.1]; rfl)]
  exact h.2

theorem pyGet_not_obj (j : J) (k : String) (d : J) (h : j.isObj = false) :
    pyGet j k d = .error "AttributeError" := by
  cases j
  case obj fs => simp [J.isObj] at h
  all_goals rfl

/-- `flatten_entry` raises when the address value is a truthy non-dict. -/
theorem flatten_entry_err_address (today : String) (fs : List (String × J))
    (ud : Option String)
    (ha : blockOk ((fs.lookup "address").getD (J.obj [])) = false) :
    flatten_entry today (J.obj fs) ud = .error "AttributeError" := by
  unfold flatten_entry
  simp only [bind, Except.bind, pure, Except.pure, pyGet_obj,
    pyGet_not_obj _ "municipality" J.null
      (normBlock_not_obj_of_not_blockOk _ ha)]

/-- `flatten_entry` raises when the address block is fine but the
time-on-market value is a truthy non-dict. -/
theorem flatten_entry_err_tom (today : String) (fs : List (String × J))
    (ud : Option String) (afs : List (String × J))
    (ha : normBlock ((fs.lookup "address").getD (J.obj [])) = J.obj afs)
    (ht : blockOk ((fs.lookup "timeOnMarket").getD (J.obj [])) = false) :
    flatten_entry today (J.obj fs) ud = .error "AttributeError" := by
  unfold flatten_entry
  simp only [bind, Except.bind, pure, Except.pure, pyGet_obj, ha,
    pyGet_not_obj _ "current" J.null
      (normBlock_not_obj_of_not_blockOk _ ht)]

/-- C2 (counterexample): the claim says `flatten_entry` never raises when
an expected nested value is not a mapping, but for the concrete record
`{"address": "x"}` — whose address value is a truthy non-mapping — the
call raises `AttributeError` on `"x".get("municipality")`. -/
theorem flatten_entry_raises_on_string_address :
    flatten_entry "2025-01-01" (J.obj [("address", J.str "x")]) none
      = .error "AttributeError" := rfl

/-- C2 (amended): for records whose address and time-on-market values are
each either a mapping or falsy/absent (the `x or {}` guard turns falsy
values into the empty dict; a truthy non-mapping still raises, see the
counterexample), `flatten_entry` never raises: it returns a row with the
ten expected fields, the address-derived and time-on-market-derived
fields are null when those blocks are absent, and the remaining fields
are still produced from the record. -/
theorem flatten_entry_total_when_blocks_wellformed (today : String)
    (fs : List (String × J)) (ud : Option String)
    (ha : blockOk ((fs.lookup "address").getD (J.obj [])) = true)
    (ht : blockOk ((fs.lookup "timeOnMarket").getD (J.obj [])) = true) :
    ∃ r, flatten_entry today (J.obj fs) ud = .ok r ∧
      r.map Prod.fst = ["kommune", "salgspris_kr", "pris_per_m2_kr",
        "dage_paa_marked_nu", "boligareal_m2", "opdateringsdato", "adresse",
        "husnummer", "postnummer", "by"] ∧
      (fs.lookup "address" = none →
        r.lookup "kommune" = some J.null ∧
        r.lookup "boligareal_m2" = some J.null ∧
        r.lookup "adresse" = some J.null ∧
        r.lookup "husnummer" = some J.null ∧
        r.lookup "postnummer" = some J.null ∧
        r.lookup "by" = some J.null) ∧
      (fs.lookup "timeOnMarket" = none →
        r.lookup "dage_paa_marked_nu" = some J.null) ∧
      r.lookup "salgspris_kr" = some ((fs.lookup "priceCash").getD J.null) ∧
      r.lookup "pris_per_m2_kr" = some ((fs.lookup "perAreaPrice").getD J.null) := by
  obtain ⟨afs, hafs⟩ := normBlock_obj_of_blockOk _ ha
  obtain ⟨tfs, htfs⟩ := normBlock_obj_of_blockOk _ ht
  refine ⟨_, flatten_entry_ok today fs ud afs tfs hafs htfs, rfl, ?_, ?_, rfl, rfl⟩
  · intro hnone
    rw [hnone] at hafs
    simp only [Option.getD_none] at hafs
    have hemp : J.obj ([] : List (String × J)) = J.obj afs := by
      rw [← hafs]; rfl
    injection hemp with hemp'
    subst hemp'
    exact ⟨rfl, rfl, rfl, rfl, rfl, rfl⟩
  · intro hnone
    rw [hnone] at htfs
    simp only [Option.getD_none] at htfs
    have hemp : J.obj ([] : List (String × J)) = J.obj tfs := by
      rw [← htfs]; rfl
    injection hemp with hemp'
    subst hemp'
    rfl

/-- Witness for C2's amended theorem: the empty record has both blocks
absent and flattens successfully. -/
theorem flatten_entry_total_witness :
    ∃ r, flatten_entry "2025-01-01" (J.obj []) none = Except.ok r := by
  obtain ⟨r, hr, -⟩ :=
    flatten_entry_total_when_blocks_wellformed "2025-01-01" [] none
      (by decide) (by decide)
  exact ⟨r, hr⟩

/-- C10: on every successful flattening, the update-date output field is
exactly the supplied fallback date (today's date when the argument is
omitted); no field of the input record influences it. -/
theorem flatten_entry_update_date (today : String) (entry : J)
    (ud : Option String) (r : List (String × J))
    (h : flatten_entry today entry ud = .ok r) :
    r.lookup "opdateringsdato" = some (J.str (ud.getD today)) := by
  cases entry
  case obj fs =>
    by_cases ha : blockOk ((fs.lookup "address").getD (J.obj [])) = true
    · obtain ⟨afs, hafs⟩ := normBlock_obj_of_blockOk _ ha
      by_cases ht : blockOk ((fs.lookup "timeOnMarket").getD (J.obj [])) = true
      · obtain ⟨tfs, htfs⟩ := normBlock_obj_of_blockOk _ ht
        rw [flatten_entry_ok today fs ud afs tfs hafs htfs] at h
        injection h with h'
        rw [← h']
        rfl
      · rw [flatten_entry_err_tom today fs ud afs hafs
          (Bool.eq_false_iff.mpr ht)] at h
        cases h
    · rw [flatten_entry_err_address today fs ud
        (Bool.eq_false_iff.mpr ha)] at h
      cases h
  all_goals simp [flatten_entry, pyGet, bind, Except.bind] at h

/-- Witness for C10 at a concrete record and explicit fallback date. -/
theorem flatten_entry_update_date_witness :
    ([("kommune", J.null), ("salgspris_kr", J.null), ("pris_per_m2_kr", J.null),
      ("dage_paa_marked_nu", J.null), ("boligareal_m2", J.null),
      ("opdateringsdato", J.str "2024-01-01"), ("adresse", J.null),
      ("husnummer", J.null), ("postnummer", J.null),
      ("by", J.null)].lookup "opdateringsdato") = some (J.str "2024-01-01") :=
  flatten_entry_update_date "t" (J.obj []) (some "2024-01-01") _ rfl

/-- C3: `fetch_properties_from_municipality` absorbs every failure: the
exceptional outcome (network error, timeout, non-2xx, JSON decode
failure) yields the empty list, a decoded dict body yields exactly its
`cases` field (empty list when absent), and a decoded non-dict body —
whose `.get` raises inside the `try` — also yields the empty list. The
function is total over outcomes, so no error ever reaches the caller. -/
theorem fetch_absorbs_failures (m : String) (pp : ℕ) :
    fetch_properties_from_municipality m FetchOutcome.exn pp = J.arr [] ∧
    (∀ fsv : List (String × J),
      fetch_properties_from_municipality m (FetchOutcome.ok (J.obj fsv)) pp
        = (fsv.lookup "cases").getD (J.arr [])) ∧
    (∀ body : J, body.isObj = false →
      fetch_properties_from_municipality m (FetchOutcome.ok body) pp
        = J.arr []) := by
  refine ⟨rfl, fun fsv => rfl, fun body hb => ?_⟩
  show (match pyGet body "cases" (J.arr []) with
        | .ok v => v
        | .error _ => J.arr []) = J.arr []
  rw [pyGet_not_obj body "cases" (J.arr []) hb]

/-- Witness for C3: a body with a `cases` array returns exactly it. -/
theorem fetch_absorbs_failures_witness :
    fetch_properties_from_municipality "Esbjerg"
      (FetchOutcome.ok (J.obj [("cases", J.arr [J.num 1])])) 1000
      = J.arr [J.num 1] :=
  ((fetch_absorbs_failures "Esbjerg" 1000).2.1
    [("cases", J.arr [J.num 1])]).trans rfl

/-- C4: with either configuration value missing from the environment,
`upsert_daily_stats_to_supabase` raises the configuration error and
performs no effect at all — in particular neither client construction
nor the network upsert call happens. -/
theorem upsert_config_error_before_client (url key upErr : Option String)
    (h : url = none ∨ key = none) :
    upsert_daily_stats_to_supabase url key upErr
      = ([], Except.error
          "mangler env vars: SUPABASE_URL og/eller SUPABASE_SERVICE_ROLE_KEY") := by
  unfold upsert_daily_stats_to_supabase
  rcases h with h | h <;> subst h
  · rfl
  · rw [if_pos (by simp [truthyEnv])]

/-- Witness for C4 with both variables unset. -/
theorem upsert_config_error_witness :
    upsert_daily_stats_to_supabase none none none
      = ([], Except.error
          "mangler env vars: SUPABASE_URL og/eller SUPABASE_SERVICE_ROLE_KEY") :=
  upsert_config_error_before_client none none none (Or.inl rfl)

/-- Full evaluation of the stats row on the all-null dataset `c1df`:
the means and the median are NaN (`float("nan")` from pandas), and the
total-value-in-billions field is `0.0` because pandas `sum` over an
all-null series is `0.0`. -/
theorem c1df_stats : calculate_daily_stats "2025-01-01" c1df =
    [("Dato", Val.str "2025-01-01"),
     ("Total_Antal_Boliger", Val.int 1),
     ("Total_Gns_Pris_kr", Val.nan),
     ("Total_Median_Pris_kr", Val.nan),
     ("Total_Gns_M2_Pris_kr", Val.nan),
     ("Total_Gns_Liggetid_dage", Val.nan),
     ("Total_Samlet_Udbud_mia_kr", Val.float 0)] := by
  have hk : kommuner c1df = [] := by decide
  have hfm : c1df.rows.filterMap FlatRow.salgspris_kr = [] := by decide
  have hMS : meanStat c1df "salgspris_kr" FlatRow.salgspris_kr = Val.nan := by
    unfold meanStat
    rw [if_pos (by decide : "salgspris_kr" ∈ c1df.cols), hfm]
    rfl
  have hMD : medianStat c1df "salgspris_kr" FlatRow.salgspris_kr = Val.nan := by
    unfold medianStat
    rw [if_pos (by decide : "salgspris_kr" ∈ c1df.cols), hfm]
    rfl
  have hM2 : meanStat c1df "pris_per_m2_kr" FlatRow.pris_per_m2_kr = Val.nan := by
    unfold meanStat
    rw [if_pos (by decide : "pris_per_m2_kr" ∈ c1df.cols)]
    rfl
  have hLT : meanStat c1df "dage_paa_marked_nu" FlatRow.dage_paa_marked_nu
      = Val.nan := by
    unfold meanStat
    rw [if_pos (by decide : "dage_paa_marked_nu" ∈ c1df.cols)]
    rfl
  have hSU : sumStat c1df "salgspris_kr" FlatRow.salgspris_kr
      = Val.float ((0 : ℤ) : ℚ) := by
    unfold sumStat
    rw [if_pos (by decide : "salgspris_kr" ∈ c1df.cols), hfm]
    have h0 : qdiv (List.sum ([] : List ℚ)) 1000000000 = ((0 : ℤ) : ℚ) := by
      rw [qdiv_eq]
      norm_num
    rw [h0]
  have hr0 : roundTo1 ((0 : ℤ) : ℚ) = 0 := by
    rw [roundTo1_intCast]
    norm_num
  unfold calculate_daily_stats rawStats baseStats
  rw [hk]
  simp only [List.flatMap_nil, List.append_nil, List.map_cons, List.map_nil]
  rw [hMS, hMD, hM2, hLT, hSU]
  simp only [roundVal]
  rw [hr0]
  rfl

/-- C1 (counterexample): on a dataset whose numeric columns are present
but entirely null, the sum-derived total-billions field is `0.0` (zero,
not null) and the mean field is NaN — contradicting the claim that every
mean/median/sum-derived field is null, never zero and never NaN. -/
theorem stats_allnull_counterexample :
    (calculate_daily_stats "2025-01-01" c1df).lookup "Total_Samlet_Udbud_mia_kr"
      = some (Val.float 0) ∧
    (calculate_daily_stats "2025-01-01" c1df).lookup "Total_Gns_Pris_kr"
      = some Val.nan := by
  rw [c1df_stats]
  exact ⟨rfl, rfl⟩

/-- C1 (amended): over an empty dataset (the empty DataFrame has no
columns) the row is count = 0 with every derived field null and no
municipality fields; but when the sale-price column is present and
entirely null, the mean and median fields are NaN (normalized to null
only at the payload boundary) and the sum-derived total-billions field
is `0.0`, not null. -/
theorem stats_empty_or_allnull (today : String) :
    (∀ rows : List FlatRow,
      calculate_daily_stats today ⟨[], rows⟩
        = [("Dato", Val.str today),
           ("Total_Antal_Boliger", Val.int rows.length),
           ("Total_Gns_Pris_kr", Val.null),
           ("Total_Median_Pris_kr", Val.null),
           ("Total_Gns_M2_Pris_kr", Val.null),
           ("Total_Gns_Liggetid_dage", Val.null),
           ("Total_Samlet_Udbud_mia_kr", Val.null)]) ∧
    (∀ df : DF, "salgspris_kr" ∈ df.cols →
      df.rows.filterMap FlatRow.salgspris_kr = [] →
      (calculate_daily_stats today df).lookup "Total_Gns_Pris_kr"
        = some Val.nan ∧
      (calculate_daily_stats today df).lookup "Total_Median_Pris_kr"
        = some Val.nan ∧
      (calculate_daily_stats today df).lookup "Total_Samlet_Udbud_mia_kr"
        = some (Val.float 0)) := by
  constructor
  · intro rows
    unfold calculate_daily_stats rawStats baseStats meanStat medianStat
      sumStat kommuner
    simp only [List.not_mem_nil, if_false, List.flatMap_nil, List.append_nil,
      List.map_cons, List.map_nil, roundVal]
  · intro df h1 h2
    have hMS : meanStat df "salgspris_kr" FlatRow.salgspris_kr = Val.nan := by
      unfold meanStat
      rw [if_pos h1, h2]
      rfl
    have hMD : medianStat df "salgspris_kr" FlatRow.salgspris_kr = Val.nan := by
      unfold medianStat
      rw [if_pos h1, h2]
      rfl
    have hSU : sumStat df "salgspris_kr" FlatRow.salgspris_kr
        = Val.float ((0 : ℤ) : ℚ) := by
      unfold sumStat
      rw [if_pos h1, h2]
      have h0 : qdiv (List.sum ([] : List ℚ)) 1000000000 = ((0 : ℤ) : ℚ) := by
        rw [qdiv_eq]
        norm_num
      rw [h0]
    have hr0 : roundTo1 ((0 : ℤ) : ℚ) = 0 := by
      rw [roundTo1_intCast]
      norm_num
    unfold calculate_daily_stats rawStats baseStats
    rw [hMS, hMD, hSU]
    simp only [List.map_append, List.map_cons, roundVal, List.lookup, hr0]
    refine ⟨rfl, rfl, rfl⟩

/-- Witness for C1's amended theorem at the all-null dataset. -/
theorem stats_empty_or_allnull_witness :
    (calculate_daily_stats "2025-01-01" c1df).lookup "Total_Gns_Pris_kr"
      = some Val.nan :=
  ((stats_empty_or_allnull "2025-01-01").2 c1df (by decide) (by decide)).1

/-- C5: the per-municipality fields are produced for exactly the distinct
non-null municipality names present (none when the `kommune` column is
absent), in ascending lexical order and without repetition, as a block of
four fields per municipality whose names are the municipality name with
spaces replaced by underscores followed by the four stat suffixes; the
whole row is a pure function of the dataset, so the order is
deterministic for a fixed input. -/
theorem kommune_fields_ordered (today : String) (df : DF) :
    List.Sorted (· ≤ ·) (kommuner df) ∧
    (kommuner df).Nodup ∧
    (∀ k, k ∈ kommuner df ↔
      ("kommune" ∈ df.cols ∧ some k ∈ df.rows.map FlatRow.kommune)) ∧
    calculate_daily_stats today df
      = (baseStats today df).map (fun p => (p.1, roundVal p.2))
        ++ (kommuner df).flatMap
            (fun k => (kommuneStats df k).map (fun p => (p.1, roundVal p.2))) ∧
    (∀ k, (kommuneStats df k).map Prod.fst
      = [pyReplaceSpace k ++ "_Antal", pyReplaceSpace k ++ "_Gns_Pris",
         pyReplaceSpace k ++ "_Gns_M2_Pris",
         pyReplaceSpace k ++ "_Gns_Liggetid"]) := by
  refine ⟨?_, ?_, ?_, ?_, fun k => rfl⟩
  · unfold kommuner
    split
    · exact List.sorted_insertionSort _ _
    · exact List.sorted_nil
  · unfold kommuner
    split
    · exact ((List.perm_insertionSort _ _).nodup_iff).mpr (List.nodup_dedup _)
    · exact List.nodup_nil
  · intro k
    unfold kommuner
    split
    · rename_i h
      rw [(List.perm_insertionSort _ _).mem_iff, List.mem_dedup,
        List.mem_filterMap]
      constructor
      · rintro ⟨r, hr, hrk⟩
        exact ⟨h, List.mem_map.mpr ⟨r, hr, hrk⟩⟩
      · rintro ⟨-, hm⟩
        obtain ⟨r, hr, hrk⟩ := List.mem_map.mp hm
        exact ⟨r, hr, hrk⟩
    · rename_i h
      simp only [List.not_mem_nil, false_iff]
      rintro ⟨hc, -⟩
      exact h hc
  · unfold calculate_daily_stats rawStats
    rw [List.map_append, List.map_flatMap]

/-- Witness for C5 on the example dataset. -/
theorem kommune_fields_ordered_witness :
    "Esbjerg" ∈ kommuner exDF :=
  ((kommune_fields_ordered "2025-01-01" exDF).2.2.1 "Esbjerg").mpr
    ⟨by decide, by decide⟩

/-- C6 (counterexample): on the spec's example dataset the stats row has
no lower-case `esbjerg_antal`/`total_antal_boliger`-style fields: the
code emits title-case names (`Esbjerg_Antal`, `Total_Antal_Boliger`,
...), so the claim's field names do not appear in the row. -/
theorem esbjerg_example_lowercase_fields_absent :
    (calculate_daily_stats "2025-01-01" exDF).lookup "esbjerg_antal" = none ∧
    (calculate_daily_stats "2025-01-01" exDF).lookup "esbjerg_gns_pris" = none ∧
    (calculate_daily_stats "2025-01-01" exDF).lookup "total_antal_boliger" = none ∧
    (calculate_daily_stats "2025-01-01" exDF).lookup "total_gns_pris_kr" = none := by
  rw [exDF_stats]
  exact ⟨rfl, rfl, rfl, rfl⟩

/-- C6 (amended): on the example dataset the row carries the claimed
values under the code's actual title-case field names:
`Esbjerg_Antal = 2`, `Esbjerg_Gns_Pris = 2500000.0`,
`Total_Antal_Boliger = 2`, `Total_Gns_Pris_kr = 2500000.0`. -/
theorem esbjerg_example_values :
    (calculate_daily_stats "2025-01-01" exDF).lookup "Esbjerg_Antal"
      = some (Val.int 2) ∧
    (calculate_daily_stats "2025-01-01" exDF).lookup "Esbjerg_Gns_Pris"
      = some (Val.float 2500000) ∧
    (calculate_daily_stats "2025-01-01" exDF).lookup "Total_Antal_Boliger"
      = some (Val.int 2) ∧
    (calculate_daily_stats "2025-01-01" exDF).lookup "Total_Gns_Pris_kr"
      = some (Val.float 2500000) := by
  rw [exDF_stats]
  exact ⟨rfl, rfl, rfl, rfl⟩

/-- C7: the final stats row is exactly the raw stats dict with each cell
passed through the rounding step: float cells are rounded to 1 decimal
place, int cells (the counts) are unchanged, NaN stays NaN, and the
None/text cells (including the `Dato` key) are untouched. -/
theorem stats_rounding (today : String) (df : DF) :
    (∀ k v, (k, v) ∈ calculate_daily_stats today df →
      ∃ v0, (k, v0) ∈ rawStats today df ∧ v = roundVal v0) ∧
    (∀ q, roundVal (Val.float q) = Val.float (roundTo1 q)) ∧
    (∀ n, roundVal (Val.int n) = Val.int n) ∧
    roundVal Val.nan = Val.nan ∧
    roundVal Val.null = Val.null ∧
    (∀ s, roundVal (Val.str s) = Val.str s) ∧
    (calculate_daily_stats today df).lookup "Dato" = some (Val.str today) ∧
    (calculate_daily_stats today df).lookup "Total_Antal_Boliger"
      = some (Val.int df.rows.length) := by
  refine ⟨?_, fun q => rfl, fun n => rfl, rfl, rfl, fun s => rfl, ?_, ?_⟩
  · intro k v hv
    unfold calculate_daily_stats at hv
    rw [List.mem_map] at hv
    obtain ⟨⟨k0, v0⟩, h0, heq⟩ := hv
    cases heq
    exact ⟨v0, h0, rfl⟩
  · rfl
  · rfl

/-- Witness for C7 on the example dataset: the `Dato` cell of the final
row comes from an unrounded raw text cell. -/
theorem stats_rounding_witness :
    ∃ v0, ("Dato", v0) ∈ rawStats "2025-01-01" exDF ∧
      Val.str "2025-01-01" = roundVal v0 :=
  (stats_rounding "2025-01-01" exDF).1 "Dato" (Val.str "2025-01-01")
    (by rw [exDF_stats]; exact List.mem_cons_self _ _)

/-- C8: the payload conversion keeps every key, turns every NA cell
(Python None or float NaN) into an explicit null, passes every non-NA
cell through unchanged, and consequently the payload contains no NaN. -/
theorem row_to_payload_no_nan (row : List (String × Val)) :
    (row_to_payload row).map Prod.fst = row.map Prod.fst ∧
    (∀ k v, (k, v) ∈ row_to_payload row → v ≠ Val.nan) ∧
    (∀ k v, (k, v) ∈ row → v.isna = false → (k, v) ∈ row_to_payload row) ∧
    (∀ k v, (k, v) ∈ row → v.isna = true →
      (k, Val.null) ∈ row_to_payload row) := by
  refine ⟨?_, ?_, ?_, ?_⟩
  · unfold row_to_payload
    rw [List.map_map]
    rfl
  · intro k v hv
    unfold row_to_payload at hv
    rw [List.mem_map] at hv
    obtain ⟨⟨k0, v0⟩, -, heq⟩ := hv
    cases heq
    by_cases h0 : v0.isna = true
    · rw [if_pos h0]
      exact fun hc => Val.noConfusion hc
    · rw [if_neg h0]
      cases v0 <;> simp_all [Val.isna]
  · intro k v hm hna
    unfold row_to_payload
    rw [List.mem_map]
    exact ⟨(k, v), hm, by simp [hna]⟩
  · intro k v hm hna
    unfold row_to_payload
    rw [List.mem_map]
    exact ⟨(k, v), hm, by simp [hna]⟩

/-- Witness for C8: a NaN cell becomes an explicit null. -/
theorem row_to_payload_witness :
    ("a", Val.null) ∈ row_to_payload [("a", Val.nan)] :=
  (row_to_payload_no_nan [("a", Val.nan)]).2.2.2 "a" Val.nan (by simp) rfl

theorem mergeIntoHistory_filter_today {β : Type} (s : String × β)
    (file : Option (List (String × β))) :
    (mergeIntoHistory s file).filter (fun r => r.1 == s.1) = [s] := by
  cases file
  case none => simp [mergeIntoHistory]
  case some rows =>
    have hp : List.Perm
        ((mergeIntoHistory s (some rows)).filter (fun r => r.1 == s.1))
        (((rows.filter (fun r => !(r.1 == s.1))) ++ [s]).filter
          (fun r => r.1 == s.1)) :=
      (List.perm_insertionSort _ _).filter _
    rw [List.filter_append] at hp
    have hnil : (rows.filter (fun r => !(r.1 == s.1))).filter
        (fun r => r.1 == s.1) = [] := by
      rw [List.filter_eq_nil_iff]
      intro a ha
      rw [List.mem_filter] at ha
      simp only [Bool.not_eq_true'] at ha
      simp [ha.2]
    have hone : ([s].filter (fun r => r.1 == s.1)) = [s] := by simp
    rw [hnil, hone, List.nil_append] at hp
    exact List.perm_singleton.mp hp

theorem mergeIntoHistory_nodup {β : Type} (s : String × β)
    (file : Option (List (String × β)))
    (h : ∀ rows, file = some rows → rows.Nodup) :
    (mergeIntoHistory s file).Nodup := by
  cases file
  case none => simp [mergeIntoHistory]
  case some rows =>
    have hr := h rows rfl
    refine ((List.perm_insertionSort _ _).nodup_iff).mpr ?_
    rw [List.nodup_append]
    refine ⟨hr.filter _, List.nodup_singleton s, ?_⟩
    intro a ha hb
    rw [List.mem_filter] at ha
    rw [List.mem_singleton] at hb
    subst hb
    simp at ha

/-- C9 (spec-modelled): merging today's stats row into the history twice
for the same date leaves exactly one row for that date — the second
call's row — and, provided the pre-existing history had no duplicate
rows, the resulting history has none either. -/
theorem mergeIntoHistory_last_write_wins {β : Type} (d : String)
    (s1 s2 : String × β) (h1 : s1.1 = d) (h2 : s2.1 = d)
    (file : Option (List (String × β)))
    (hnd : ∀ rows, file = some rows → rows.Nodup) :
    (mergeIntoHistory s2 (some (mergeIntoHistory s1 file))).filter
        (fun r => r.1 == d) = [s2] ∧
    (mergeIntoHistory s2 (some (mergeIntoHistory s1 file))).Nodup := by
  subst h2
  refine ⟨mergeIntoHistory_filter_today s2 _, ?_⟩
  refine mergeIntoHistory_nodup s2 _ ?_
  intro rows hr
  injection hr with hr'
  subst hr'
  exact mergeIntoHistory_nodup s1 file hnd

/-- Witness for C9 with a one-row history written twice for one date. -/
theorem mergeIntoHistory_witness :
    (mergeIntoHistory ("2025-10-12", 2)
        (some (mergeIntoHistory ("2025-10-12", 1)
          (none : Option (List (String × ℕ)))))).filter
      (fun r => r.1 == "2025-10-12") = [("2025-10-12", 2)] :=
  (mergeIntoHistory_last_write_wins "2025-10-12" ("2025-10-12", 1)
    ("2025-10-12", 2) rfl rfl none (fun rows h => nomatch h)).1
